import Mathlib

/-!
Shallow embedding of the GitGud repository-state analysis and recommendation
engine (Python package `gitgud`), together with theorems checking the
natural-language specification against the code.

Source files embedded:
  * `gitgud/types/ai_types.py` and `gitgud/types/git_types.py` (data model)
  * `gitgud/services/ai/heuristic.py` (rule-based provider)
  * `gitgud/services/ai/ai_service.py` (provider orchestrator)
  * `gitgud/services/git/git_service.py` (fetch, get_branch_info)
  * `gitgud/services/git/context_builder.py` (build_context)
  * `gitgud/commands/push.py` (manual-review gate and command execution loop)
  * `gitgud/services/ai/commit_message_generator.py` (heuristic path)

Python exceptions are modelled with `Except String`; machine-external effects
(the live git repository, the HTTP model service, the interactive prompt) are
modelled as explicit parameters recording their outcomes.
-/

namespace GitGud

/-- The strategy enumeration of `AIResponse.strategy`
(`Literal['push', 'pull-then-push', 'stash-pull-push', 'rebase', 'merge', 'manual']`
in `ai_types.py`). -/
inductive Strategy where
  | push
  | pullThenPush
  | stashPullPush
  | rebase
  | merge
  | manual
deriving DecidableEq, Repr

/-- `GitStatus` dataclass from `git_types.py`. Counts are lengths of lists in
the source, hence naturals. -/
structure GitStatus where
  current : Option String
  tracking : Option String
  ahead : Nat
  behind : Nat
  modified : Nat
  created : Nat
  deleted : Nat
  conflicted : List String
  is_clean : Bool
deriving DecidableEq, Repr

/-- `BranchInfo` dataclass from `git_types.py`. The `local` field of the
source is a Lean keyword, so it is called `localName` here; it receives
`GitStatus.current`, hence `Option String`. -/
structure BranchInfo where
  localName : Option String
  remote : Option String
  ahead : Nat
  behind : Nat
  is_divergent : Bool
deriving DecidableEq, Repr

/-- `GitContext` dataclass from `ai_types.py` (the provider-facing
DecisionContext). `local_branch` receives `BranchInfo.localName`, hence
`Option String`. -/
structure GitContext where
  local_branch : Option String
  remote_branch : Option String
  commits_ahead : Nat
  commits_behind : Nat
  uncommitted_changes : Nat
  staged_changes : Nat
  has_stash : Bool
  is_divergent : Bool
  conflicting_files : List String
deriving DecidableEq, Repr

/-- `AIResponse` dataclass from `ai_types.py` (the Recommendation). -/
structure AIResponse where
  strategy : Strategy
  commands : List String
  reasoning : String
  risks : List String
  requires_manual_review : Bool
  confidence : Nat
deriving DecidableEq, Repr

/-! ## Rule-based provider (`heuristic.py`)

The seven return values of `HeuristicProvider.analyze`, one per rule, copied
verbatim from `heuristic.py`. -/

/-- Rule 1 output (`heuristic.py` lines 23-30): clean push scenario. -/
def respPush : AIResponse :=
  { strategy := .push
    commands := ["git push"]
    reasoning := "Local branch is ahead of remote with no conflicts. Safe to push."
    risks := []
    requires_manual_review := false
    confidence := 95 }

/-- Rule 2 output (`heuristic.py` lines 36-43): need to pull first. -/
def respPullThenPush : AIResponse :=
  { strategy := .pullThenPush
    commands := ["git pull --rebase", "git push"]
    reasoning := "Remote has new commits. Pull with rebase to maintain linear history."
    risks := ["Rebase may cause conflicts that need manual resolution"]
    requires_manual_review := false
    confidence := 85 }

/-- Rule 3 output (`heuristic.py` lines 47-54): uncommitted changes + need to pull. -/
def respStashPullPush : AIResponse :=
  { strategy := .stashPullPush
    commands := ["git stash", "git pull --rebase", "git stash pop", "git push"]
    reasoning := "Uncommitted changes need to be stashed before pulling."
    risks := ["Stash pop may cause conflicts", "Rebase may cause conflicts"]
    requires_manual_review := false
    confidence := 75 }

/-- Rule 4 output (`heuristic.py` lines 58-65): divergent branches. -/
def respDivergent : AIResponse :=
  { strategy := .manual
    commands := []
    reasoning := "Branches have diverged. Manual review required to choose between rebase, merge, or force push."
    risks := ["Force push will overwrite remote", "Merge creates merge commit", "Rebase rewrites history"]
    requires_manual_review := true
    confidence := 50 }

/-- Rule 5 output (`heuristic.py` lines 69-76): nothing to push, clean tree. -/
def respClean : AIResponse :=
  { strategy := .manual
    commands := []
    reasoning := "Nothing to push. Working tree is clean and up to date."
    risks := []
    requires_manual_review := false
    confidence := 100 }

/-- Rule 6 output (`heuristic.py` lines 80-87): uncommitted changes but nothing to push. -/
def respCommitFirst : AIResponse :=
  { strategy := .manual
    commands := []
    reasoning := "You have uncommitted changes but no commits to push. Commit your changes first with: git add . && git commit -m \"your message\""
    risks := []
    requires_manual_review := true
    confidence := 100 }

/-- Rule 7 output (`heuristic.py` lines 90-97): fallback. -/
def respFallback : AIResponse :=
  { strategy := .manual
    commands := []
    reasoning := "Complex repository state detected. Manual review recommended."
    risks := ["Unable to determine safe automated approach"]
    requires_manual_review := true
    confidence := 30 }

/-- `HeuristicProvider.is_available` (`heuristic.py` lines 6-8): always `True`. -/
def HeuristicProvider.is_available : Bool := true

/-- `HeuristicProvider.analyze` (`heuristic.py` lines 10-97): the if-chain of
the seven rules, in the exact source order. -/
def HeuristicProvider.analyze (context : GitContext) : AIResponse :=
  -- Clean push scenario
  if context.commits_ahead > 0 ∧ context.commits_behind = 0 ∧
      context.uncommitted_changes = 0 then
    respPush
  -- Need to pull first
  else if context.commits_behind > 0 ∧ context.is_divergent = false ∧
      context.uncommitted_changes = 0 then
    respPullThenPush
  -- Uncommitted changes + need to pull
  else if context.commits_behind > 0 ∧ context.uncommitted_changes > 0 then
    respStashPullPush
  -- Divergent branches
  else if context.is_divergent = true then
    respDivergent
  -- Nothing to push - clean
  else if context.commits_ahead = 0 ∧ context.uncommitted_changes = 0 then
    respClean
  -- Uncommitted changes but nothing to push
  else if context.commits_ahead = 0 ∧ context.uncommitted_changes > 0 then
    respCommitFirst
  -- Fallback
  else
    respFallback

/-! ## Orchestrator (`ai_service.py`)

A provider is modelled by the observable outcomes of its two methods:
`avail` is the result of `is_available()` (`.error` when the call raises) and
`run` is the result of `analyze(context)` (`.error` when the call raises).
The Ollama provider's behaviour depends on HTTP traffic, so it enters the
model as an arbitrary `Provider` value. -/

/-- Observable behaviour of a recommendation provider (duck-typed objects in
`ai_service.py`). -/
structure Provider where
  avail : Except String Bool
  run : GitContext → Except String AIResponse

/-- The `HeuristicProvider` as a `Provider`: `is_available` returns `True`
and `analyze` is the total pure function above. -/
def heuristicProvider : Provider :=
  { avail := .ok HeuristicProvider.is_available
    run := fun context => .ok (HeuristicProvider.analyze context) }

/-- The provider loop of `AIService.analyze` (`ai_service.py` lines 32-41):
try each provider in order; an exception in `is_available()` or `analyze()`
is caught and falls through to the next provider; an unavailable provider is
skipped; if no provider produces a result, raise. -/
def AIService.tryProviders : List Provider → GitContext → Except String AIResponse
  | [], _ => .error "No AI provider available"
  | p :: rest, context =>
    match p.avail with
    | .error _ => AIService.tryProviders rest context
    | .ok false => AIService.tryProviders rest context
    | .ok true =>
      match p.run context with
      | .error _ => AIService.tryProviders rest context
      | .ok r => .ok r

/-- Provider-list construction of `AIService.__init__` (`ai_service.py`
lines 15-21): the Ollama provider is prepended when `provider_type` is
`"ollama"`, and the heuristic provider is always appended as fallback. -/
def AIService.mkProviders (provider_type : String) (ollama : Provider) :
    List Provider :=
  (if provider_type = "ollama" then [ollama] else []) ++ [heuristicProvider]

/-- `AIService.analyze` (`ai_service.py` lines 23-41). -/
def AIService.analyze (providers : List Provider) (context : GitContext) :
    Except String AIResponse :=
  AIService.tryProviders providers context

/-- A provider succeeds on a context when `is_available()` returns `True`
without raising and `analyze(context)` returns a response without raising. -/
def Provider.succeeds (p : Provider) (context : GitContext) : Prop :=
  p.avail = .ok true ∧ ∃ r, p.run context = .ok r

/-! ## Repository reader (`git_service.py`) -/

/-- A configured remote: its name and whether fetching it would succeed. -/
structure Remote where
  name : String
  fetchOk : Bool
deriving DecidableEq, Repr

/-- The repository state `GitService.fetch` observes: whether `self.repo`
is set, and the configured remotes in order. -/
structure RepoState where
  hasRepo : Bool
  remotes : List Remote
deriving DecidableEq, Repr

/-- `GitService.fetch` (`git_service.py` lines 107-132). Control flow of the
source: no repo returns `False`; zero remotes returns `True`;
`self.repo.remotes.origin.fetch()` raises `AttributeError` when no remote is
named `origin`, whose handler fetches `remotes[0]` and returns `True` — but
that nested fetch runs inside the `except AttributeError:` block, so an
exception it raises is NOT caught by the following `except Exception:` clause
and propagates to the caller (`.error` here). A failure of the `origin` fetch
itself IS caught by `except Exception:` and yields `False`. -/
def GitService.fetch (s : RepoState) : Except String Bool :=
  if s.hasRepo = false then .ok false
  else if s.remotes.isEmpty then
    -- No remotes configured - this is OK for local-only repos
    .ok true
  else
    match s.remotes.find? (fun r => r.name == "origin") with
    | some origin =>
      -- origin fetch failure is caught by the generic handler: silent fail
      if origin.fetchOk then .ok true else .ok false
    | none =>
      -- AttributeError handler: try first available remote, then return True
      match s.remotes with
      | [] => .ok true
      | r :: _ => if r.fetchOk then .ok true else .error "fetch failed"

/-- `GitService.get_branch_info` (`git_service.py` lines 89-105), parameterised
by the result of the `self.get_status()` call it performs. -/
def GitService.get_branch_info (status : Option GitStatus) : Option BranchInfo :=
  match status with
  | none => none
  | some s =>
    some { localName := s.current
           remote := s.tracking
           ahead := s.ahead
           behind := s.behind
           is_divergent := decide (s.ahead > 0 ∧ s.behind > 0) }

/-- `ContextBuilder.build_context` (`context_builder.py` lines 16-45),
parameterised by the repository predicate and by the results of its two
status reads (`get_status()` is called once directly and once inside
`get_branch_info()`; the repository may change between the reads). The
`fetch()` call is for side effect only and its boolean is discarded. -/
def ContextBuilder.build_context (isRepo : Bool)
    (statusRead : Option GitStatus) (statusReadForBranch : Option GitStatus) :
    Option GitContext :=
  if isRepo = false then none
  else
    let status := statusRead
    let branch_info := GitService.get_branch_info statusReadForBranch
    match status, branch_info with
    | some st, some bi =>
      some { local_branch := bi.localName
             remote_branch := bi.remote
             commits_ahead := bi.ahead
             commits_behind := bi.behind
             uncommitted_changes := st.modified + st.created + st.deleted
             staged_changes := 0
             has_stash := false
             is_divergent := bi.is_divergent
             conflicting_files := st.conflicted }
    | _, _ => none

/-! ## Push workflow (`push.py`)

The workflow after the recommendation is obtained, modelled from
`push.py` lines 83-134: the manual-review gate, the confirmation prompt and
the execution loop. External outcomes enter as parameters: `yes` is the
`-y` flag, `answer` the prompt result (`none` when `inquirer.prompt`
returns `None`), and `ok i` whether executing the `i`-th command succeeds. -/

/-- Outcome of the execution loop: the indices of commands attempted (in
order), the number that succeeded, and the index of the first failure. -/
structure PushOutcome where
  executed : List Nat
  completed : Nat
  failedAt : Option Nat
deriving DecidableEq, Repr

/-- The command loop of `push.py` lines 123-132, from start index `i`:
each command is attempted in sequence; on the first failure the loop aborts
(`raise click.Abort()`), so no later command is attempted. -/
def runPlanAux (ok : Nat → Bool) : Nat → List String → PushOutcome
  | _, [] => { executed := [], completed := 0, failedAt := none }
  | i, _cmd :: rest =>
    if ok i then
      let r := runPlanAux ok (i + 1) rest
      { executed := i :: r.executed, completed := r.completed + 1, failedAt := r.failedAt }
    else
      { executed := [i], completed := 0, failedAt := some i }

/-- `executePlan` of spec §4.6: the execution loop of `push.py` run over the
whole approved command list. -/
def executePlan (cmds : List String) (ok : Nat → Bool) : PushOutcome :=
  runPlanAux ok 0 cmds

/-- `push.py` lines 83-134 after the recommendation `response` is displayed:
the manual-review gate (line 83) returns before the confirmation and
execution steps; without `-y`, a missing or negative confirmation cancels;
otherwise the command loop runs. -/
def pushWorkflow (response : AIResponse) (yes : Bool) (answer : Option Bool)
    (ok : Nat → Bool) : PushOutcome :=
  -- Handle manual review
  if response.requires_manual_review = true ∨ response.commands.isEmpty then
    { executed := [], completed := 0, failedAt := none }
  -- Step 4: Get confirmation
  else if yes = false ∧ (answer = none ∨ answer = some false) then
    { executed := [], completed := 0, failedAt := none }
  -- Step 5: Execute commands
  else
    executePlan response.commands ok

/-! ## String primitives for the commit-message generator

The generator (`commit_message_generator.py`) is textual, so the Python
string primitives it uses (`in`, `startswith`, `split`, `strip`, `lower`,
`replace`) are translated here as structurally recursive functions on
`List Char`, which the kernel can evaluate on concrete inputs. -/

/-- `s.startswith(pat)`: the character list `s` starts with `pat`. -/
def startsWithL (pat : List Char) : List Char → Bool
  | [] => pat.isEmpty
  | c :: cs =>
    match pat with
    | [] => true
    | p :: ps => p == c && startsWithL ps cs

/-- Python `pat in s`: `pat` occurs as a contiguous substring of `s`. -/
def containsL (pat : List Char) : List Char → Bool
  | [] => pat.isEmpty
  | c :: cs => startsWithL pat (c :: cs) || containsL pat cs

/-- Split a character list at every character satisfying `p`; like Python
`str.split(sep)` for a one-character separator, this keeps empty pieces. -/
def splitByL (p : Char → Bool) : List Char → List (List Char)
  | [] => [[]]
  | c :: cs =>
    let r := splitByL p cs
    if p c then [] :: r
    else
      match r with
      | [] => [[c]]
      | l :: ls => (c :: l) :: ls

/-- Python `s.split(sep)` for a one-character separator `sep`. -/
def splitOnCharL (sep : Char) (s : List Char) : List (List Char) :=
  splitByL (fun c => c == sep) s

/-- Python `s.split()` with no argument: split on whitespace runs, dropping
empty pieces. -/
def pySplitWS (s : List Char) : List (List Char) :=
  (splitByL Char.isWhitespace s).filter (fun t => !t.isEmpty)

/-- Python `s.strip()`: drop whitespace from both ends. -/
def trimL (s : List Char) : List Char :=
  ((s.dropWhile Char.isWhitespace).reverse.dropWhile Char.isWhitespace).reverse

/-- Python `s.replace(pat, repl)` for a non-empty `pat`, implemented with a
fuel argument (one unit per consumed character) to stay structurally
recursive. -/
def replaceFuel (pat repl : List Char) : Nat → List Char → List Char
  | 0, s => s
  | _ + 1, [] => []
  | fuel + 1, c :: cs =>
    if !pat.isEmpty && startsWithL pat (c :: cs) then
      repl ++ replaceFuel pat repl fuel ((c :: cs).drop pat.length)
    else
      c :: replaceFuel pat repl fuel cs

/-- Python `s.replace(pat, repl)`: replace every non-overlapping occurrence,
left to right. -/
def replaceL (pat repl s : List Char) : List Char :=
  replaceFuel pat repl s.length s

/-- Python `s.lower()` (ASCII range, which covers every keyword the
generator tests). -/
def lowerL (s : List Char) : List Char :=
  s.map Char.toLower

/-- Join pieces with a separator (used for `', '.join` and `'\n'.join`). -/
def intercalateL (sep : List Char) : List (List Char) → List Char
  | [] => []
  | [x] => x
  | x :: xs => x ++ sep ++ intercalateL sep xs

/-- String-level wrapper for Python `pat in s`. -/
def strContains (s pat : String) : Bool :=
  containsL pat.data s.data

/-! ## Commit message generator, heuristic path
(`commit_message_generator.py`) -/

/-- The per-line extraction step of `_extract_added_items`
(`commit_message_generator.py` lines 396-414): an added `def` / `class` /
`async def` line yields a described item. -/
def addedItemOfLine (line : List Char) : Option (List Char) :=
  if !startsWithL ['+'] line then none
  else
    let l := trimL (line.drop 1)
    if startsWithL "def ".data l then
      let func_name := trimL (replaceL "def ".data []
        ((splitOnCharL '(' l).headD []))
      if !func_name.isEmpty && !startsWithL ['_'] func_name then
        some ("function ".data ++ func_name)
      else none
    else if startsWithL "class ".data l then
      let class_name := trimL ((splitOnCharL '('
        (replaceL "class ".data [] ((splitOnCharL ':' l).headD []))).headD [])
      if !class_name.isEmpty then some ("class ".data ++ class_name) else none
    else if startsWithL "async def ".data l then
      let func_name := trimL (replaceL "async def ".data []
        ((splitOnCharL '(' l).headD []))
      if !func_name.isEmpty && !startsWithL ['_'] func_name then
        some ("async function ".data ++ func_name)
      else none
    else none

/-- `_extract_added_items` (`commit_message_generator.py` lines 393-416):
scan added lines for function/class definitions, capped at 3 items. -/
def extract_added_items (diff : String) : List (List Char) :=
  ((splitOnCharL '\n' diff.data).filterMap addedItemOfLine).take 3

/-- First pass of `_extract_file_names` (`commit_message_generator.py`
lines 330-338): file names from `diff --git` headers, deduplicated, in
order. Python `line.split()` splits on whitespace runs. -/
def fileNamesFromHeaders (lines : List (List Char)) : List (List Char) :=
  lines.foldl
    (fun files line =>
      if startsWithL "diff --git".data line then
        let parts := pySplitWS line
        if parts.length ≥ 3 then
          let fname := replaceL "b/".data []
            (replaceL "a/".data [] ((parts.drop 2).headD []))
          if !fname.isEmpty && !files.contains fname then files ++ [fname]
          else files
        else files
      else files)
    []

/-- State of the untracked-files scan: collected names, whether the scanner
is inside the `Untracked files:` section, and whether it has hit the
`break`. -/
structure UntrackedScan where
  files : List (List Char)
  inUntracked : Bool
  stopped : Bool

/-- Second pass of `_extract_file_names` (`commit_message_generator.py`
lines 341-365): names from the `Untracked files:` section; a line with
bracket/punctuation characters is skipped, a line that does not look like a
file path ends the section. -/
def scanUntracked (start : List (List Char)) (lines : List (List Char)) :
    List (List Char) :=
  (lines.foldl
    (fun (st : UntrackedScan) line =>
      if st.stopped then st
      else if containsL "Untracked files:".data line then
        { st with inUntracked := true }
      else if st.inUntracked then
        let fname := trimL line
        if fname.isEmpty then st
        else if ['(', ')', '\x7b', '\x7d', '[', ']', ':', ';'].any
            (fun ch => containsL [ch] fname) then st
        else if containsL ['/'] fname || containsL ['.'] fname then
          if st.files.contains fname then st
          else { st with files := st.files ++ [fname] }
        else { st with stopped := true }
      else st)
    { files := start, inUntracked := false, stopped := false }).files

/-- `_extract_file_names` (`commit_message_generator.py` lines 326-367). -/
def extract_file_names (diff : String) : List (List Char) :=
  let lines := splitOnCharL '\n' diff.data
  let files := fileNamesFromHeaders lines
  if containsL "Untracked files:".data diff.data then
    scanUntracked files lines
  else files

/-- `_summarize_files` (`commit_message_generator.py` lines 369-391). -/
def summarize_files (files : List (List Char)) : List Char :=
  if files.isEmpty then "files".data
  else if files.length = 1 then
    let fname := files.headD []
    let base := replaceL ".md".data [] (replaceL ".js".data []
      (replaceL ".py".data [] ((splitOnCharL '/' fname).getLastD [])))
    replaceL ['_'] [' '] base
  else if files.all (fun f => containsL ".md".data f) then "documentation".data
  else if files.all (fun f => containsL ".py".data f) then "Python modules".data
  else if files.all (fun f => containsL "test".data (lowerL f)) then "tests".data
  else if files.all (fun f =>
      containsL "config".data (lowerL f) || containsL "setup".data (lowerL f)) then
    "configuration".data
  else (toString files.length).data ++ " files".data

/-- `_looks_like_feature` (`commit_message_generator.py` lines 418-422). -/
def looks_like_feature (diff : String) : Bool :=
  ["new", "add", "create", "implement", "feature"].any
    (fun keyword => containsL keyword.data (lowerL diff.data))

/-- `_looks_like_fix` (`commit_message_generator.py` lines 424-428). -/
def looks_like_fix (diff : String) : Bool :=
  ["fix", "bug", "issue", "error", "correct", "resolve"].any
    (fun keyword => containsL keyword.data (lowerL diff.data))

/-- `_looks_like_docs` (`commit_message_generator.py` lines 430-437): doc
file-extension keywords, lowercased, searched in the lowercased diff. -/
def looks_like_docs (diff : String) : Bool :=
  [".md", ".txt", ".rst", "README", "CHANGELOG"].any
    (fun ext => containsL (lowerL ext.data) (lowerL diff.data))

/-- `_looks_like_refactor` (`commit_message_generator.py` lines 439-443). -/
def looks_like_refactor (diff : String) : Bool :=
  ["refactor", "restructure", "reorganize", "cleanup", "improve"].any
    (fun keyword => containsL keyword.data (lowerL diff.data))

/-- The type/description chain of `_generate_heuristic`
(`commit_message_generator.py` lines 238-303): the `commit_type` and
`description` variables at the point where `summary` is built. -/
def heuristic_type_desc (diff : String) (status : GitStatus) :
    List Char × List Char :=
  let file_names := extract_file_names diff
  let added_items := extract_added_items diff
  let has_new_files := status.created > 0
  let is_feature := looks_like_feature diff
  let is_fix := looks_like_fix diff
  let is_docs := looks_like_docs diff
  let is_refactor := looks_like_refactor diff
  -- For large changesets, be generic
  if file_names.length > 50 then
    ("chore".data, "update ".data ++ (toString file_names.length).data ++ " files".data)
  -- Check for new features first (before fix, since keywords overlap)
  else if is_feature || has_new_files then
    ("feat".data,
      if added_items.length ≥ 2 then
        "implement ".data ++ intercalateL ", ".data (added_items.take 2)
      else if !added_items.isEmpty then
        "implement ".data ++ added_items.headD []
      else if !file_names.isEmpty then
        "add ".data ++ summarize_files file_names
      else "add new functionality".data)
  else if is_fix then
    ("fix".data,
      if containsL "bug".data (lowerL diff.data) then "resolve bug".data
      else if containsL "error".data (lowerL diff.data) then "fix error handling".data
      else if !file_names.isEmpty then
        "fix issues in ".data ++ summarize_files file_names
      else "resolve issues".data)
  else if is_docs then
    ("docs".data,
      if containsL "README".data diff.data then "update README".data
      else if !file_names.isEmpty then
        "update ".data ++ summarize_files file_names
      else "update documentation".data)
  else if is_refactor then
    ("refactor".data,
      if !file_names.isEmpty then "refactor ".data ++ summarize_files file_names
      else "improve code structure".data)
  else if has_new_files then
    ("feat".data, "add ".data ++ summarize_files file_names)
  else if !file_names.isEmpty then
    ("chore".data, "update ".data ++ summarize_files file_names)
  else ("chore".data, "update files".data)

/-- `_generate_heuristic` (`commit_message_generator.py` lines 219-324):
the summary line plus the bullet-point details. -/
def generate_heuristic (diff : String) (status : GitStatus) : String :=
  let file_names := extract_file_names diff
  let added_items := extract_added_items diff
  let has_new_files := status.created > 0
  let td := heuristic_type_desc diff status
  let summary := td.1 ++ ": ".data ++ td.2
  let details :=
    if !added_items.isEmpty then
      added_items.map (fun item => "- add ".data ++ item)
    else if file_names.length > 1 && file_names.length ≤ 5 then
      file_names.map (fun fname =>
        "- ".data ++ (if has_new_files then "add ".data else "update ".data) ++ fname)
    else if file_names.length > 5 then
      ["- modify ".data ++ (toString file_names.length).data ++ " files".data]
    else []
  if !details.isEmpty then
    String.mk (summary ++ "\n\n".data ++ intercalateL "\n".data details)
  else String.mk summary

/-! ## Concrete inputs used by witnesses and counterexamples -/

/-- Clean-push context: ahead=3, behind=0, no uncommitted changes. -/
def ctxAhead3 : GitContext :=
  { local_branch := some "main", remote_branch := some "origin/main"
    commits_ahead := 3, commits_behind := 0, uncommitted_changes := 0
    staged_changes := 0, has_stash := false, is_divergent := false
    conflicting_files := [] }

/-- Divergent context with one uncommitted change. -/
def ctxDiv : GitContext :=
  { local_branch := some "main", remote_branch := some "origin/main"
    commits_ahead := 1, commits_behind := 1, uncommitted_changes := 1
    staged_changes := 0, has_stash := false, is_divergent := true
    conflicting_files := [] }

/-- Divergent context with a clean working tree. -/
def ctxDivClean : GitContext :=
  { local_branch := some "main", remote_branch := some "origin/main"
    commits_ahead := 2, commits_behind := 3, uncommitted_changes := 0
    staged_changes := 0, has_stash := false, is_divergent := true
    conflicting_files := [] }

/-- An Ollama provider whose `is_available()` returns `True` but whose
`analyze()` raises. -/
def failOllama : Provider :=
  { avail := .ok true, run := fun _ => .error "Ollama returned status 500" }

/-- The four-command stash-pull-push plan of the rule-based provider. -/
def plan4 : List String :=
  ["git stash", "git pull --rebase", "git stash pop", "git push"]

/-- Execution outcomes where exactly the command at index 2 fails. -/
def okAt2 : Nat → Bool := fun i => i != 2

/-- A repository with one configured remote named `upstream` (no `origin`)
whose fetch fails. -/
def repoNoOrigin : RepoState :=
  { hasRepo := true, remotes := [{ name := "upstream", fetchOk := false }] }

/-- A status snapshot with ahead=2, behind=3 and one modified file. -/
def st0 : GitStatus :=
  { current := some "main", tracking := some "origin/main", ahead := 2
    behind := 3, modified := 1, created := 0, deleted := 0, conflicted := []
    is_clean := false }

/-- The `BranchInfo` derived from `st0`. -/
def bi0 : BranchInfo :=
  { localName := some "main", remote := some "origin/main", ahead := 2
    behind := 3, is_divergent := true }

/-- The `GitContext` built from `st0`. -/
def c0 : GitContext :=
  { local_branch := some "main", remote_branch := some "origin/main"
    commits_ahead := 2, commits_behind := 3, uncommitted_changes := 1
    staged_changes := 0, has_stash := false, is_divergent := true
    conflicting_files := [] }

/-- A diff whose only added line declares `my_feature`. -/
def featDiff : String := "+def my_feature():"

/-- A status reporting one new untracked file. -/
def featStatus : GitStatus :=
  { current := some "main", tracking := some "origin/main", ahead := 0
    behind := 0, modified := 0, created := 1, deleted := 0, conflicted := []
    is_clean := false }

/-! ## Claim C1 -/

/-- Claim C1, counterexample: the divergent context `ctxDiv` (ahead=1,
behind=1, one uncommitted change) hits the stash-pull-push rule, not the
manual rule, because `heuristic.py` checks the stash-pull-push guard
(behind>0 and uncommitted>0) before the divergence guard. -/
theorem c1_counterexample :
    ctxDiv.is_divergent = true ∧
    HeuristicProvider.analyze ctxDiv = respStashPullPush ∧
    decide (HeuristicProvider.analyze ctxDiv = respDivergent) = false ∧
    decide ((HeuristicProvider.analyze ctxDiv).strategy = Strategy.manual) = false := by
  decide

/-- Claim C1 (amended): a divergent context reaches the manual rule
(strategy `manual`, no commands, `requires_manual_review`, confidence 50)
when behind>0 and the working tree has no uncommitted changes; with
uncommitted changes, the stash-pull-push rule fires instead, since it is
checked before the divergence rule. -/
theorem c1_divergent_manual :
    (∀ c : GitContext, c.is_divergent = true → 0 < c.commits_behind →
      c.uncommitted_changes = 0 → HeuristicProvider.analyze c = respDivergent) ∧
    (∀ c : GitContext, 0 < c.commits_behind → 0 < c.uncommitted_changes →
      HeuristicProvider.analyze c = respStashPullPush) := by
  constructor
  · intro c hd hb hu
    unfold HeuristicProvider.analyze
    split_ifs with h1 h2 h3
    · exact absurd h1.2.1 (by omega)
    · rw [hd] at h2; simp at h2
    · exact absurd h3.2 (by omega)
    · rfl
  · intro c hb hu
    unfold HeuristicProvider.analyze
    split_ifs with h1 h2 h3
    · exact absurd h1.2.2 (by omega)
    · exact absurd h2.2.2 (by omega)
    · rfl
    all_goals exact absurd ⟨hb, hu⟩ h3

/-- Claim C1, witness: the manual rule on a clean divergent context, and
the stash-pull-push rule on a dirty one. -/
theorem c1_witness :
    HeuristicProvider.analyze ctxDivClean = respDivergent ∧
    HeuristicProvider.analyze ctxDiv = respStashPullPush :=
  ⟨c1_divergent_manual.1 ctxDivClean rfl (by decide) rfl,
   c1_divergent_manual.2 ctxDiv (by decide) (by decide)⟩

/-! ## Claim C2 -/

/-- Claim C2, counterexample: on ahead=3, behind=0, uncommitted=0 the
rule-based provider's command list is `["git push"]`, not `["push"]`. -/
theorem c2_counterexample :
    ctxAhead3.commits_ahead = 3 ∧ ctxAhead3.commits_behind = 0 ∧
    ctxAhead3.uncommitted_changes = 0 ∧
    (HeuristicProvider.analyze ctxAhead3).commands = ["git push"] ∧
    decide ((HeuristicProvider.analyze ctxAhead3).commands = ["push"]) = false := by
  decide

/-- Claim C2 (amended): for every context with ahead>0, behind=0 and
uncommitted=0, the rule-based provider returns exactly strategy `push`,
commands `["git push"]`, confidence 95 and an empty risk list. -/
theorem c2_clean_push (c : GitContext) (ha : 0 < c.commits_ahead)
    (hb : c.commits_behind = 0) (hu : c.uncommitted_changes = 0) :
    HeuristicProvider.analyze c = respPush := by
  unfold HeuristicProvider.analyze
  split_ifs with h1
  · rfl
  all_goals exact absurd ⟨ha, hb, hu⟩ h1

/-- Claim C2, witness: the amended statement at ahead=3, behind=0,
uncommitted=0. -/
theorem c2_witness : HeuristicProvider.analyze ctxAhead3 = respPush :=
  c2_clean_push ctxAhead3 (by decide) rfl rfl

/-! ## Claim C3 -/

/-- Any provider list ending in the heuristic provider yields a response:
the loop of `AIService.analyze` falls through failures and unavailability
until it reaches the always-available, never-failing heuristic. -/
theorem tryProviders_heuristic_last (xs : List Provider) (c : GitContext) :
    ∃ r, AIService.tryProviders (xs ++ [heuristicProvider]) c = .ok r := by
  induction xs with
  | nil => exact ⟨HeuristicProvider.analyze c, rfl⟩
  | cons p rest ih =>
    cases hav : p.avail with
    | error e =>
      simpa only [List.cons_append, AIService.tryProviders, hav] using ih
    | ok b =>
      cases b with
      | false =>
        simpa only [List.cons_append, AIService.tryProviders, hav] using ih
      | true =>
        cases hrun : p.run c with
        | error e =>
          simpa only [List.cons_append, AIService.tryProviders, hav, hrun] using ih
        | ok r =>
          exact ⟨r, by simp only [List.cons_append, AIService.tryProviders, hav, hrun]⟩

/-- Claim C3: the orchestrator built by `AIService.__init__` always returns
a recommendation, whatever the model-backed provider's observable behaviour
(unavailable, raising in `is_available()`, or raising in `analyze()`); and
in general the `No AI provider available` error is produced only when every
provider in the list fails to produce a result. -/
theorem c3_orchestrator_total :
    (∀ (provider_type : String) (ollama : Provider) (c : GitContext),
      ∃ r, AIService.analyze (AIService.mkProviders provider_type ollama) c = .ok r) ∧
    (∀ (ps : List Provider) (c : GitContext) (e : String),
      AIService.analyze ps c = .error e → ∀ p ∈ ps, ¬ p.succeeds c) := by
  constructor
  · intro provider_type ollama c
    exact tryProviders_heuristic_last _ c
  · intro ps
    induction ps with
    | nil => intro c e _ q hq; simp at hq
    | cons p rest ih =>
      intro c e h q hq
      have hrest : AIService.tryProviders rest c = .error e := by
        cases hav : p.avail with
        | error e2 =>
          simpa only [AIService.analyze, AIService.tryProviders, hav] using h
        | ok b =>
          cases b with
          | false =>
            simpa only [AIService.analyze, AIService.tryProviders, hav] using h
          | true =>
            cases hrun : p.run c with
            | error e2 =>
              simpa only [AIService.analyze, AIService.tryProviders, hav, hrun] using h
            | ok r =>
              simp only [AIService.analyze, AIService.tryProviders, hav, hrun] at h
              exact Except.noConfusion h
      rcases List.mem_cons.mp hq with rfl | hmem
      · rintro ⟨hav, r, hrun⟩
        simp only [AIService.analyze, AIService.tryProviders, hav, hrun] at h
        exact Except.noConfusion h
      · exact ih c e hrest q hmem

/-- Claim C3, witness: with an available-but-failing model provider the
orchestrator still returns a result, and the terminal error of the empty
provider list trivially satisfies the all-providers-fail property. -/
theorem c3_witness :
    (∃ r, AIService.analyze (AIService.mkProviders "ollama" failOllama) ctxAhead3 = .ok r) ∧
    (∀ p ∈ ([] : List Provider), ¬ p.succeeds ctxAhead3) :=
  ⟨c3_orchestrator_total.1 "ollama" failOllama ctxAhead3,
   c3_orchestrator_total.2 [] ctxAhead3 "No AI provider available" rfl⟩

/-! ## Claim C4 -/

/-- Claim C4: whenever a recommendation requires manual review or carries no
commands, the push workflow returns at the manual-review gate and executes
nothing, regardless of the confidence value, the `-y` flag, the prompt
answer or the command outcomes. -/
theorem c4_manual_review_blocks (response : AIResponse) (yes : Bool)
    (answer : Option Bool) (ok : Nat → Bool)
    (h : response.requires_manual_review = true ∨ response.commands = []) :
    (pushWorkflow response yes answer ok).executed = [] ∧
    (pushWorkflow response yes answer ok).failedAt = none := by
  have hcond : response.requires_manual_review = true ∨
      response.commands.isEmpty = true := by
    rcases h with h | h
    · exact Or.inl h
    · exact Or.inr (by simp [h])
  unfold pushWorkflow
  rw [if_pos hcond]
  exact ⟨rfl, rfl⟩

/-- Claim C4, witness: the divergent-branches recommendation (manual review
required) executes nothing even with `-y` and all-succeeding commands. -/
theorem c4_witness :
    (pushWorkflow respDivergent true none (fun _ => true)).executed = [] ∧
    (pushWorkflow respDivergent true none (fun _ => true)).failedAt = none :=
  c4_manual_review_blocks respDivergent true none (fun _ => true) (Or.inl rfl)

/-! ## Claim C5 -/

/-- The command loop from start index `i0`: if the first `k` commands
succeed and the `k`-th fails, the loop completes `k` commands, reports
failure at `i0 + k`, and attempts no command past `i0 + k`. -/
theorem runPlanAux_halts (ok : Nat → Bool) :
    ∀ (cmds : List String) (i0 k : Nat), k < cmds.length →
    ok (i0 + k) = false → (∀ j, j < k → ok (i0 + j) = true) →
    (runPlanAux ok i0 cmds).completed = k ∧
    (runPlanAux ok i0 cmds).failedAt = some (i0 + k) ∧
    ∀ m ∈ (runPlanAux ok i0 cmds).executed, m ≤ i0 + k := by
  intro cmds
  induction cmds with
  | nil => intro i0 k hk; simp at hk
  | cons cmd rest ih =>
    intro i0 k hk hfail hpre
    cases k with
    | zero =>
      have h0 : ok i0 = false := by simpa using hfail
      refine ⟨?_, ?_, ?_⟩ <;> simp [runPlanAux, h0]
    | succ k =>
      have h0 : ok i0 = true := by simpa using hpre 0 (Nat.succ_pos k)
      have harith : i0 + 1 + k = i0 + (k + 1) := by omega
      have ih' := ih (i0 + 1) k (by simpa using Nat.lt_of_succ_lt_succ hk)
        (by rw [harith]; exact hfail)
        (fun j hj => by
          have : i0 + 1 + j = i0 + (j + 1) := by omega
          rw [this]; exact hpre (j + 1) (by omega))
      refine ⟨?_, ?_, ?_⟩
      · simp only [runPlanAux, h0, if_true]
        rw [ih'.1]
      · simp only [runPlanAux, h0, if_true]
        rw [ih'.2.1, harith]
      · simp only [runPlanAux, h0, if_true]
        intro m hm
        rcases List.mem_cons.mp hm with rfl | hm
        · omega
        · have := ih'.2.2 m hm
          omega

/-- Claim C5: the executor runs the approved plan strictly in order and
halts at the first failing command, reporting its index: if commands
`0..k-1` succeed and command `k` fails, then `completed = k`,
`failedAt = k`, and no command after index `k` is ever attempted. -/
theorem c5_executePlan_halts (cmds : List String) (ok : Nat → Bool) (k : Nat)
    (hk : k < cmds.length) (hfail : ok k = false)
    (hpre : ∀ j, j < k → ok j = true) :
    (executePlan cmds ok).completed = k ∧
    (executePlan cmds ok).failedAt = some k ∧
    ∀ m ∈ (executePlan cmds ok).executed, m ≤ k := by
  have h := runPlanAux_halts ok cmds 0 k hk (by simpa using hfail)
    (fun j hj => by simpa using hpre j hj)
  simpa [executePlan] using h

/-- Claim C5, witness: on the four-command stash-pull-push plan with the
command at index 2 failing, the executor reports `completed = 2`,
`failedAt = 2`, and command 3 is never attempted. -/
theorem c5_witness :
    (executePlan plan4 okAt2).completed = 2 ∧
    (executePlan plan4 okAt2).failedAt = some 2 ∧
    decide (3 ∈ (executePlan plan4 okAt2).executed) = false := by
  have h := c5_executePlan_halts plan4 okAt2 2 (by decide) (by decide) (by decide)
  exact ⟨h.1, h.2.1, by decide⟩

/-! ## Claim C6 -/

/-- Claim C6 (code bug): `fetch()` does return `True` with zero remotes and
`False` when the `origin` fetch fails, but when the repository has remotes
and none is named `origin`, a failing fetch of the first remote raises out
of `fetch()` instead of returning `False` — the nested fetch call sits
inside the `except AttributeError:` handler, outside the protection of the
`except Exception:` clause. -/
theorem c6_fetch_behaviour :
    GitService.fetch repoNoOrigin = .error "fetch failed" ∧
    GitService.fetch { hasRepo := true, remotes := [] } = .ok true ∧
    GitService.fetch
      { hasRepo := true, remotes := [{ name := "origin", fetchOk := false }] } = .ok false ∧
    GitService.fetch
      { hasRepo := true, remotes := [{ name := "origin", fetchOk := true }] } = .ok true :=
  ⟨rfl, rfl, rfl, rfl⟩

/-! ## Claim C7 -/

/-- Claim C7: at both construction sites in the system — `get_branch_info`
for `BranchInfo` and `build_context` for the decision context — the
`is_divergent` flag equals `ahead > 0 AND behind > 0` for the counts stored
in the constructed value; it is never set independently. -/
theorem c7_divergence_derived :
    (∀ (st : Option GitStatus) (bi : BranchInfo),
      GitService.get_branch_info st = some bi →
      bi.is_divergent = decide (bi.ahead > 0 ∧ bi.behind > 0)) ∧
    (∀ (isRepo : Bool) (s1 s2 : Option GitStatus) (c : GitContext),
      ContextBuilder.build_context isRepo s1 s2 = some c →
      c.is_divergent = decide (c.commits_ahead > 0 ∧ c.commits_behind > 0)) := by
  constructor
  · intro st bi h
    cases st with
    | none => simp [GitService.get_branch_info] at h
    | some s =>
      simp only [GitService.get_branch_info, Option.some.injEq] at h
      rw [← h]
  · intro isRepo s1 s2 c h
    cases isRepo with
    | false => simp [ContextBuilder.build_context] at h
    | true =>
      cases s1 with
      | none => simp [ContextBuilder.build_context] at h
      | some st1 =>
        cases s2 with
        | none => simp [ContextBuilder.build_context, GitService.get_branch_info] at h
        | some st2 =>
          simp only [ContextBuilder.build_context, GitService.get_branch_info,
            Option.some.injEq, if_neg (by simp : ¬(true = false))] at h
          rw [← h]

/-- Claim C7, witness: the invariant at a concrete ahead=2, behind=3
snapshot, for both the derived `BranchInfo` and the built context. -/
theorem c7_witness :
    bi0.is_divergent = decide (bi0.ahead > 0 ∧ bi0.behind > 0) ∧
    c0.is_divergent = decide (c0.commits_ahead > 0 ∧ c0.commits_behind > 0) :=
  ⟨c7_divergence_derived.1 (some st0) bi0 rfl,
   c7_divergence_derived.2 true (some st0) (some st0) c0 rfl⟩

/-! ## Claim C8 -/

/-- Claim C8: the rule-based provider is total and deterministic — every
context lands in one of the seven rule outputs (some rule, possibly the
fallback, always matches), and identical contexts yield identical
output. -/
theorem c8_total_deterministic :
    (∀ c : GitContext,
      HeuristicProvider.analyze c = respPush ∨
      HeuristicProvider.analyze c = respPullThenPush ∨
      HeuristicProvider.analyze c = respStashPullPush ∨
      HeuristicProvider.analyze c = respDivergent ∨
      HeuristicProvider.analyze c = respClean ∨
      HeuristicProvider.analyze c = respCommitFirst ∨
      HeuristicProvider.analyze c = respFallback) ∧
    (∀ c c' : GitContext, c = c' →
      HeuristicProvider.analyze c = HeuristicProvider.analyze c') := by
  constructor
  · intro c
    unfold HeuristicProvider.analyze
    split_ifs
    · exact Or.inl rfl
    · exact Or.inr (Or.inl rfl)
    · exact Or.inr (Or.inr (Or.inl rfl))
    · exact Or.inr (Or.inr (Or.inr (Or.inl rfl)))
    · exact Or.inr (Or.inr (Or.inr (Or.inr (Or.inl rfl))))
    · exact Or.inr (Or.inr (Or.inr (Or.inr (Or.inr (Or.inl rfl)))))
    · exact Or.inr (Or.inr (Or.inr (Or.inr (Or.inr (Or.inr rfl)))))
  · intro c c' h
    rw [h]

/-- Claim C8, witness: totality and determinism at a concrete context. -/
theorem c8_witness :
    (HeuristicProvider.analyze ctxAhead3 = respPush ∨
      HeuristicProvider.analyze ctxAhead3 = respPullThenPush ∨
      HeuristicProvider.analyze ctxAhead3 = respStashPullPush ∨
      HeuristicProvider.analyze ctxAhead3 = respDivergent ∨
      HeuristicProvider.analyze ctxAhead3 = respClean ∨
      HeuristicProvider.analyze ctxAhead3 = respCommitFirst ∨
      HeuristicProvider.analyze ctxAhead3 = respFallback) ∧
    HeuristicProvider.analyze ctxAhead3 = HeuristicProvider.analyze ctxAhead3 :=
  ⟨c8_total_deterministic.1 ctxAhead3,
   c8_total_deterministic.2 ctxAhead3 ctxAhead3 rfl⟩

/-! ## Claim C9 -/

/-- Claim C9, counterexample: on the diff `+def my_feature():` with one new
untracked file, the heuristic generator classifies the change as `feat`, but
the description is `implement function my_feature`, which does not contain
the contiguous phrase `implement my_feature`. -/
theorem c9_counterexample :
    featStatus.created = 1 ∧
    heuristic_type_desc featDiff featStatus =
      ("feat".data, "implement function my_feature".data) ∧
    strContains "implement function my_feature" "implement my_feature" = false := by
  decide

/-- Claim C9 (amended): on a diff whose only added line is
`+def my_feature():` together with a status reporting one new untracked
file, the heuristic generator classifies the change as `feat` and its
description is `implement function my_feature` — it contains `implement`
and `my_feature`, though not the contiguous phrase `implement my_feature`. -/
theorem c9_feat_classification :
    heuristic_type_desc featDiff featStatus =
      ("feat".data, "implement function my_feature".data) ∧
    generate_heuristic featDiff featStatus =
      "feat: implement function my_feature\n\n- add function my_feature" ∧
    strContains "implement function my_feature" "implement" = true ∧
    strContains "implement function my_feature" "my_feature" = true := by
  decide

/-! ## Claim C10 -/

/-- Claim C10: every rule-based recommendation with a non-empty command
list has `requires_manual_review = false`, so a heuristic recommendation
with commands to run is never blocked by the manual-review gate. -/
theorem c10_commands_imply_auto (c : GitContext)
    (h : (HeuristicProvider.analyze c).commands ≠ []) :
    (HeuristicProvider.analyze c).requires_manual_review = false := by
  unfold HeuristicProvider.analyze at h ⊢
  split_ifs at h ⊢ <;>
    simp_all [respPush, respPullThenPush, respStashPullPush, respDivergent,
      respClean, respCommitFirst, respFallback]

/-- Claim C10, witness: the clean-push recommendation has commands and is
not gated. -/
theorem c10_witness :
    (HeuristicProvider.analyze ctxAhead3).requires_manual_review = false :=
  c10_commands_imply_auto ctxAhead3 (by decide)

end GitGud
